import Mathlib

/-!
Shallow embedding of the control-signal conditioning and parameter-binding
subsystem of the Mutables_Daisies repository: the knob "catch-up" state machine
(src/plaits_daisy/knob_catcher.h), the menu navigation state machine
(src/common/ui_state.h), the parameter / CV-mapping data model
(src/common/parameter.h, src/common/cv_input.h), and the menu-state effect of
the encoder handler (src/plaits/main.cpp).

C `float` values are modelled as exact rationals (ℚ): the claims are about the
algorithms' real-arithmetic behaviour, and all constants (0.03, 0.005, 1.001,
…) are transcribed as the exact rationals the source literals denote.
-/

namespace Spec2Proof

/-- Transcription of std::clamp(v, lo, hi): lo when v is below lo, hi when v is
above hi, v otherwise. -/
def stdClamp (v lo hi : ℚ) : ℚ :=
  if v < lo then lo else if hi < v then hi else v

namespace plaits_daisy

/-- Modelled from the spec: the ONE_POLE macro of stmlib/dsp/dsp.h, used by
KnobCatcher::Process; the library header is not among this repository's
sources, and the spec (section 4.1) documents the filter as
state += coefficient * (raw - state). -/
def ONE_POLE (state inp coefficient : ℚ) : ℚ :=
  state + coefficient * (inp - state)

/-- KnobState from src/plaits_daisy/knob_catcher.h. -/
inductive KnobState where
  | KNOB_TRACKING : KnobState
  | KNOB_WAITING : KnobState
  | KNOB_CATCHING_UP : KnobState
  deriving DecidableEq, Repr

/-- The state of one KnobCatcher (src/plaits_daisy/knob_catcher.h): the fields
state_, lp_coefficient_, use_catchup_, filtered_value_, stored_value_ and
previous_value_. -/
structure KnobCatcher where
  state : KnobState
  lp_coefficient : ℚ
  use_catchup : Bool
  filtered_value : ℚ
  stored_value : ℚ
  previous_value : ℚ
  deriving DecidableEq, Repr

/-- kMovementThreshold = 0.03f. -/
def kMovementThreshold : ℚ := 3 / 100

/-- kMinDelta = 0.005f. -/
def kMinDelta : ℚ := 1 / 200

/-- kCatchUpThreshold = 0.005f. -/
def kCatchUpThreshold : ℚ := 1 / 200

/-- KnobCatcher::Init: store the coefficient and mode, then Reset. -/
def KnobCatcher.Init (lp_coeff : ℚ) (use_catchup : Bool) : KnobCatcher :=
  { state := KnobState.KNOB_TRACKING
    lp_coefficient := lp_coeff
    use_catchup := use_catchup
    filtered_value := 0
    stored_value := 0
    previous_value := 0 }

/-- KnobCatcher::Reset: back to tracking with zeroed values. -/
def KnobCatcher.Reset (k : KnobCatcher) : KnobCatcher :=
  { k with
    state := KnobState.KNOB_TRACKING
    filtered_value := 0
    stored_value := 0
    previous_value := 0 }

/-- KnobCatcher::OnPageChange: record the parameter value and enter waiting. -/
def KnobCatcher.OnPageChange (k : KnobCatcher) (current_param_value : ℚ) : KnobCatcher :=
  { k with stored_value := current_param_value, state := KnobState.KNOB_WAITING }

/-- KnobCatcher::ForceTracking. -/
def KnobCatcher.ForceTracking (k : KnobCatcher) : KnobCatcher :=
  { k with state := KnobState.KNOB_TRACKING }

/-- The pair of clamping statements on stored_value_ in KnobCatcher::Process
(lines 131-132 of knob_catcher.h): below 0 becomes 0, above 1 becomes 1. -/
def clamp01 (y : ℚ) : ℚ :=
  let y1 := if y < 0 then (0 : ℚ) else y
  if 1 < y1 then (1 : ℚ) else y1

/-- The pair of clamping statements on skew_ratio in KnobCatcher::Process
(lines 124-125 of knob_catcher.h): below 0.1 becomes 0.1, above 10 becomes 10. -/
def skewClamp (y : ℚ) : ℚ :=
  let y1 := if y < 1 / 10 then (1 / 10 : ℚ) else y
  if 10 < y1 then (10 : ℚ) else y1

/-- KnobCatcher::Process, returning the output value and the updated catcher.
The raw reading is first low-pass filtered (ONE_POLE), then the state switch of
knob_catcher.h lines 80-148 runs. -/
def KnobCatcher.Process (k : KnobCatcher) (adc_value : ℚ) : ℚ × KnobCatcher :=
  let f := ONE_POLE k.filtered_value adc_value k.lp_coefficient
  match k.state with
  | KnobState.KNOB_TRACKING =>
      (f, { k with filtered_value := f, previous_value := f })
  | KnobState.KNOB_WAITING =>
      if |f - k.previous_value| > kMovementThreshold then
        if k.use_catchup then
          (k.stored_value,
            { k with
              state := KnobState.KNOB_CATCHING_UP
              filtered_value := f
              previous_value := f })
        else
          (f, { k with
                state := KnobState.KNOB_TRACKING
                filtered_value := f
                previous_value := f })
      else
        (k.stored_value, { k with filtered_value := f })
  | KnobState.KNOB_CATCHING_UP =>
      if |f - k.previous_value| > kMinDelta then
        let delta := f - k.previous_value
        let skew0 : ℚ :=
          if 0 < delta then
            (1001 / 1000 - k.stored_value) / (1001 / 1000 - k.previous_value)
          else
            (1 / 1000 + k.stored_value) / (1 / 1000 + k.previous_value)
        let skew := skewClamp skew0
        let s2 := clamp01 (k.stored_value + skew * delta)
        let st :=
          if |s2 - f| < kCatchUpThreshold then KnobState.KNOB_TRACKING
          else KnobState.KNOB_CATCHING_UP
        (s2, { k with
               state := st
               filtered_value := f
               stored_value := s2
               previous_value := f })
      else
        (k.stored_value, { k with filtered_value := f })

/-- Iterate KnobCatcher::Process over a list of raw readings, collecting the
outputs and the final catcher state. -/
def KnobCatcher.ProcessRun (k : KnobCatcher) : List ℚ → List ℚ × KnobCatcher
  | [] => ([], k)
  | x :: xs =>
      let r := k.Process x
      let rs := r.2.ProcessRun xs
      (r.1 :: rs.1, rs.2)

/-- The successive filtered values produced by the ONE_POLE filter inside
Process: the filter state evolves independently of the knob state machine. -/
def filteredTrace (f coeff : ℚ) : List ℚ → List ℚ
  | [] => []
  | x :: xs => ONE_POLE f x coeff :: filteredTrace (ONE_POLE f x coeff) coeff xs

/-- A concrete waiting catcher (coefficient 1, catch-up enabled, filtered and
previous at 0.46, stored at 0.1) used to trace the catch-up distance claim. -/
def c2k0 : KnobCatcher :=
  { state := KnobState.KNOB_WAITING
    lp_coefficient := 1
    use_catchup := true
    filtered_value := 23 / 50
    stored_value := 1 / 10
    previous_value := 23 / 50 }

/-- The catcher after c2k0 processes the reading 0.5 (movement 0.04 exceeds
the movement threshold, entering CatchingUp). -/
def c2k1 : KnobCatcher := (c2k0.Process (1 / 2)).2

/-- The catcher after c2k1 processes the reading 0.504 (movement 0.004 is
below kMinDelta, so stored does not advance while filtered drifts away). -/
def c2k2 : KnobCatcher := (c2k1.Process (63 / 125)).2

/-- A concrete catching-up catcher (coefficient 1, stored 0, filtered and
previous at 0.5) used to exercise one unstalled catch-up tick. -/
def c2w : KnobCatcher :=
  { state := KnobState.KNOB_CATCHING_UP
    lp_coefficient := 1
    use_catchup := true
    filtered_value := 1 / 2
    stored_value := 0
    previous_value := 1 / 2 }

end plaits_daisy

namespace mutables_ui

/-- UIState from src/common/ui_state.h. -/
inductive UIState where
  | Navigate : UIState
  | EditValue : UIState
  | Submenu : UIState
  | SubmenuEdit : UIState
  deriving DecidableEq, Repr

/-- SubmenuItem from src/common/ui_state.h. -/
inductive SubmenuItem where
  | CVSource : SubmenuItem
  | Attenuverter : SubmenuItem
  | CaptureOrigin : SubmenuItem
  | Back : SubmenuItem
  deriving DecidableEq, Repr

/-- MenuState from src/common/ui_state.h; the int fields are modelled as Int. -/
structure MenuState where
  state : UIState
  selected_param : Int
  param_count : Int
  scroll_offset : Int
  selected_submenu_item : SubmenuItem
  submenu_param_index : Int
  deriving DecidableEq, Repr

/-- MenuState::VISIBLE_PARAMS = 4. -/
def MenuState.VISIBLE_PARAMS : Int := 4

/-- The MenuState default constructor. -/
def MenuState.init : MenuState :=
  { state := UIState.Navigate
    selected_param := 0
    param_count := 0
    scroll_offset := 0
    selected_submenu_item := SubmenuItem.CVSource
    submenu_param_index := -1 }

/-- MenuState::ScrollToSelected. -/
def MenuState.ScrollToSelected (m : MenuState) : MenuState :=
  if m.selected_param < m.scroll_offset then
    { m with scroll_offset := m.selected_param }
  else if m.scroll_offset + MenuState.VISIBLE_PARAMS ≤ m.selected_param then
    { m with scroll_offset := m.selected_param - MenuState.VISIBLE_PARAMS + 1 }
  else m

/-- MenuState::NextParam. -/
def MenuState.NextParam (m : MenuState) : MenuState :=
  let m1 := { m with selected_param := m.selected_param + 1 }
  if m1.param_count ≤ m1.selected_param then
    { m1 with selected_param := 0, scroll_offset := 0 }
  else
    m1.ScrollToSelected

/-- MenuState::PrevParam. -/
def MenuState.PrevParam (m : MenuState) : MenuState :=
  let m1 := { m with selected_param := m.selected_param - 1 }
  if m1.selected_param < 0 then
    let sel := m1.param_count - 1
    let off := sel - MenuState.VISIBLE_PARAMS + 1
    { m1 with selected_param := sel, scroll_offset := if off < 0 then 0 else off }
  else
    m1.ScrollToSelected

/-- MenuState::EnterSubmenu. -/
def MenuState.EnterSubmenu (m : MenuState) (param_index : Int) : MenuState :=
  { m with
    submenu_param_index := param_index
    selected_submenu_item := SubmenuItem.CVSource
    state := UIState.Submenu }

/-- MenuState::ExitSubmenu. -/
def MenuState.ExitSubmenu (m : MenuState) : MenuState :=
  { m with submenu_param_index := -1, state := UIState.Navigate }

/-- MenuState::IsInSubmenu. -/
def MenuState.IsInSubmenu (m : MenuState) : Bool :=
  m.state = UIState.Submenu || m.state = UIState.SubmenuEdit

/-- CVMapping from src/common/parameter.h; cv_input (an int8_t holding -1 for
unmapped or a CV index 0-3) is modelled as Int. -/
structure CVMapping where
  cv_input : Int
  attenuverter : ℚ
  origin_offset : ℚ
  active : Bool
  deriving DecidableEq, Repr

/-- The CVMapping default constructor. -/
def CVMapping.init : CVMapping :=
  { cv_input := -1, attenuverter := 1, origin_offset := 1 / 2, active := false }

/-- Parameter from src/common/parameter.h, restricted to the fields the value
computations read (value, min, max, cv_mapping); the display-only fields
(name, type, enum label pointers, step_count) do not enter any claim. -/
structure Parameter where
  value : ℚ
  min : ℚ
  max : ℚ
  cv_mapping : CVMapping
  deriving DecidableEq, Repr

/-- Parameter::GetNormalized. -/
def Parameter.GetNormalized (p : Parameter) : ℚ :=
  if p.max = p.min then 0 else (p.value - p.min) / (p.max - p.min)

/-- Parameter::SetNormalized. -/
def Parameter.SetNormalized (p : Parameter) (normalized : ℚ) : Parameter :=
  { p with value := stdClamp (p.min + normalized * (p.max - p.min)) p.min p.max }

/-- Modelled from the spec: Parameter::SetNormalizedWithHysteresis is invoked
from the audio callback in src/plaits/main.cpp with threshold 0.001, but its
definition is not among the repository's sources; per the spec (section 4.3)
the hysteresis variant commits the new normalized value only when it differs
from the current normalized value by more than the threshold, and otherwise
leaves the parameter unchanged. -/
def Parameter.SetNormalizedWithHysteresis (p : Parameter) (normalized threshold : ℚ) : Parameter :=
  if |normalized - p.GetNormalized| > threshold then p.SetNormalized normalized else p

/-- CVInput::ProcessWithMapping from src/common/cv_input.h. -/
def CVInput.ProcessWithMapping (param : Parameter) (knob_value cv_value : ℚ) : ℚ :=
  if param.cv_mapping.cv_input < 0 ∨ param.cv_mapping.active = false then
    knob_value
  else
    let cv_contribution := (cv_value - 1 / 2) * 2 * param.cv_mapping.attenuverter
    let result := param.cv_mapping.origin_offset + cv_contribution
    stdClamp result 0 1

end mutables_ui

namespace plaits_main

open mutables_ui

/-- The MenuState effect of UpdateEncoder in src/plaits/main.cpp, as a function
of the decoded inputs of one tick (encoder_increment, the short-press edge
encoder_button, and the computed long_press flag). The EditValue branch also
edits the selected parameter's value in the parameter table; that table write
is outside MenuState and outside the claims about this function. -/
def UpdateEncoder (m : MenuState) (encoder_increment : Int)
    (encoder_button long_press : Bool) : MenuState :=
  match m.state with
  | UIState.Navigate =>
      let m1 := if 0 < encoder_increment then m.NextParam else m
      let m2 := if encoder_increment < 0 then m1.PrevParam else m1
      if encoder_button && !long_press then
        { m2 with state := UIState.EditValue }
      else if long_press then
        m2.EnterSubmenu m2.selected_param
      else m2
  | UIState.EditValue =>
      if encoder_button then { m with state := UIState.Navigate } else m
  | UIState.Submenu =>
      if long_press then m.ExitSubmenu else m
  | UIState.SubmenuEdit => m

end plaits_main

section Theorems

open plaits_daisy mutables_ui plaits_main

/-- The source's two-sided clamping of stored_value_ equals the clamp to [0,1]. -/
lemma clamp01_eq (y : ℚ) : clamp01 y = max 0 (min 1 y) := by
  unfold clamp01
  simp only [max_def, min_def]
  split_ifs <;> linarith

/-- The source's two-sided clamping of skew_ratio equals the clamp to [0.1, 10]. -/
lemma skewClamp_eq (y : ℚ) : skewClamp y = max (1 / 10) (min 10 y) := by
  unfold skewClamp
  simp only [max_def, min_def]
  split_ifs <;> linarith

/-- Reduction of a CatchingUp Process tick with movement above kMinDelta to
the skew update, with both clamps written as max/min clamps. -/
lemma process_catchup_update (k : KnobCatcher) (x : ℚ)
    (hs : k.state = KnobState.KNOB_CATCHING_UP)
    (hm : |ONE_POLE k.filtered_value x k.lp_coefficient - k.previous_value| > kMinDelta) :
    k.Process x =
      (let f := ONE_POLE k.filtered_value x k.lp_coefficient
       let delta := f - k.previous_value
       let skew := max (1 / 10) (min 10
         (if 0 < delta then
            (1001 / 1000 - k.stored_value) / (1001 / 1000 - k.previous_value)
          else
            (1 / 1000 + k.stored_value) / (1 / 1000 + k.previous_value)))
       let s2 := max 0 (min 1 (k.stored_value + skew * delta))
       (s2,
        { k with
          state :=
            if |s2 - f| < kCatchUpThreshold then KnobState.KNOB_TRACKING
            else KnobState.KNOB_CATCHING_UP
          filtered_value := f
          stored_value := s2
          previous_value := f })) := by
  obtain ⟨st, lp, uc, fv, sv, pv⟩ := k
  simp only at hs
  subst hs
  simp only [KnobCatcher.Process, clamp01_eq, skewClamp_eq]
  rw [if_pos hm]

/-- A CatchingUp Process tick with movement at most kMinDelta outputs the
stored value and changes only the filter state. -/
lemma process_catchup_hold (k : KnobCatcher) (x : ℚ)
    (hs : k.state = KnobState.KNOB_CATCHING_UP)
    (hm : ¬(|ONE_POLE k.filtered_value x k.lp_coefficient - k.previous_value| >
      kMinDelta)) :
    k.Process x = (k.stored_value,
      { k with filtered_value := ONE_POLE k.filtered_value x k.lp_coefficient }) := by
  obtain ⟨st, lp, uc, fv, sv, pv⟩ := k
  simp only at hs
  subst hs
  simp only [KnobCatcher.Process]
  rw [if_neg hm]

/-- A Waiting Process tick with catch-up enabled and movement above the
movement threshold outputs the stored value and enters CatchingUp with
previous refrozen at the filtered value. -/
lemma process_waiting_move_catchup (k : KnobCatcher) (x : ℚ)
    (hs : k.state = KnobState.KNOB_WAITING) (hu : k.use_catchup = true)
    (hm : |ONE_POLE k.filtered_value x k.lp_coefficient - k.previous_value| >
      kMovementThreshold) :
    k.Process x = (k.stored_value,
      { k with
        state := KnobState.KNOB_CATCHING_UP
        filtered_value := ONE_POLE k.filtered_value x k.lp_coefficient
        previous_value := ONE_POLE k.filtered_value x k.lp_coefficient }) := by
  obtain ⟨st, lp, uc, fv, sv, pv⟩ := k
  simp only at hs hu
  subst hs
  subst hu
  simp only [KnobCatcher.Process]
  rw [if_pos hm]
  simp

/-- C1: a Process tick in the CatchingUp state whose filtered input has moved
from previous by more than kMinDelta updates stored by the skew algorithm:
skew = (1.001 - stored)/(1.001 - previous) for a positive delta and
(0.001 + stored)/(0.001 + previous) for a negative one, clamped to [0.1, 10];
stored advances by skew * (filtered - previous), clamped to [0, 1]; previous is
set to the filtered value; the state becomes Tracking exactly when
|stored - filtered| < kCatchUpThreshold; the output is the updated stored. -/
theorem knobCatcher_catchup_step (k : KnobCatcher) (x : ℚ)
    (hs : k.state = KnobState.KNOB_CATCHING_UP)
    (hm : |ONE_POLE k.filtered_value x k.lp_coefficient - k.previous_value| > kMinDelta) :
    k.Process x =
      (let f := ONE_POLE k.filtered_value x k.lp_coefficient
       let delta := f - k.previous_value
       let skew := max (1 / 10) (min 10
         (if 0 < delta then
            (1001 / 1000 - k.stored_value) / (1001 / 1000 - k.previous_value)
          else
            (1 / 1000 + k.stored_value) / (1 / 1000 + k.previous_value)))
       let s2 := max 0 (min 1 (k.stored_value + skew * delta))
       (s2,
        { k with
          state :=
            if |s2 - f| < kCatchUpThreshold then KnobState.KNOB_TRACKING
            else KnobState.KNOB_CATCHING_UP
          filtered_value := f
          stored_value := s2
          previous_value := f })) :=
  process_catchup_update k x hs hm

/-- Witness for knobCatcher_catchup_step at a concrete catching-up tick. -/
theorem knobCatcher_catchup_step_witness :
    |ONE_POLE (1 / 2 : ℚ) (3 / 5) 1 - 1 / 2| > kMinDelta ∧
    (KnobCatcher.Process
        ⟨KnobState.KNOB_CATCHING_UP, 1, true, 1 / 2, 1 / 4, 1 / 2⟩ (3 / 5) =
      (let f := ONE_POLE (1 / 2 : ℚ) (3 / 5) 1
       let delta := f - 1 / 2
       let skew := max (1 / 10) (min 10
         (if 0 < delta then
            (1001 / 1000 - 1 / 4) / (1001 / 1000 - 1 / 2)
          else
            (1 / 1000 + 1 / 4) / (1 / 1000 + 1 / 2)))
       let s2 := max 0 (min 1 (1 / 4 + skew * delta))
       (s2,
        { state :=
            if |s2 - f| < kCatchUpThreshold then KnobState.KNOB_TRACKING
            else KnobState.KNOB_CATCHING_UP
          lp_coefficient := 1
          use_catchup := true
          filtered_value := f
          stored_value := s2
          previous_value := f }))) := by
  have hm : |ONE_POLE (1 / 2 : ℚ) (3 / 5) 1 - 1 / 2| > kMinDelta := by
    rw [gt_iff_lt, lt_abs]
    left
    norm_num [ONE_POLE, kMinDelta]
  exact ⟨hm, knobCatcher_catchup_step
    ⟨KnobState.KNOB_CATCHING_UP, 1, true, 1 / 2, 1 / 4, 1 / 2⟩ (3 / 5) rfl hm⟩

/-- Counterexample trace for the claim that the distance |stored - filtered|
strictly decreases on every CatchingUp tick: entering CatchingUp at distance
0.4, a subsequent reading moving the filtered input by only 0.004 (at most
kMinDelta) leaves stored in place while filtered drifts away, so the distance
grows to 0.404 and the catcher stays in CatchingUp. -/
theorem knobCatcher_distance_can_increase :
    c2k1.state = KnobState.KNOB_CATCHING_UP ∧
    c2k2.state = KnobState.KNOB_CATCHING_UP ∧
    |c2k1.stored_value - c2k1.filtered_value| <
      |c2k2.stored_value - c2k2.filtered_value| := by
  have hm1 : |ONE_POLE c2k0.filtered_value (1 / 2) c2k0.lp_coefficient -
      c2k0.previous_value| > kMovementThreshold := by
    rw [gt_iff_lt, lt_abs]
    left
    norm_num [c2k0, ONE_POLE, kMovementThreshold]
  have e1 : c2k1 =
      { state := KnobState.KNOB_CATCHING_UP
        lp_coefficient := 1
        use_catchup := true
        filtered_value := 1 / 2
        stored_value := 1 / 10
        previous_value := 1 / 2 } := by
    simp only [c2k1, process_waiting_move_catchup c2k0 (1 / 2) rfl rfl hm1]
    norm_num [c2k0, ONE_POLE]
  have hm2 : ¬(|ONE_POLE (1 / 2 : ℚ) (63 / 125) 1 - (1 / 2 : ℚ)| > kMinDelta) := by
    rw [not_lt, abs_le]
    constructor <;> norm_num [ONE_POLE, kMinDelta]
  have e2 : c2k2 =
      { state := KnobState.KNOB_CATCHING_UP
        lp_coefficient := 1
        use_catchup := true
        filtered_value := 63 / 125
        stored_value := 1 / 10
        previous_value := 1 / 2 } := by
    simp only [c2k2, e1]
    rw [process_catchup_hold
      { state := KnobState.KNOB_CATCHING_UP
        lp_coefficient := 1
        use_catchup := true
        filtered_value := 1 / 2
        stored_value := 1 / 10
        previous_value := 1 / 2 } (63 / 125) rfl hm2]
    norm_num [ONE_POLE]
  refine ⟨by rw [e1], by rw [e2], ?_⟩
  rw [e1, e2]
  simp only
  rw [abs_of_neg (by norm_num : (1 / 10 : ℚ) - 1 / 2 < 0),
    abs_of_neg (by norm_num : (1 / 10 : ℚ) - 63 / 125 < 0)]
  norm_num

/-- C4: with catch-up disabled, the first Process tick in the Waiting state
whose filtered input deviates from the frozen previous by more than the
movement threshold outputs the filtered input itself and moves the state
directly to Tracking. -/
theorem knobCatcher_snap_no_catchup (k : KnobCatcher) (x : ℚ)
    (hs : k.state = KnobState.KNOB_WAITING) (hu : k.use_catchup = false)
    (hm : |ONE_POLE k.filtered_value x k.lp_coefficient - k.previous_value| >
      kMovementThreshold) :
    (k.Process x).1 = ONE_POLE k.filtered_value x k.lp_coefficient ∧
    (k.Process x).2.state = KnobState.KNOB_TRACKING := by
  obtain ⟨st, lp, uc, fv, sv, pv⟩ := k
  simp only at hs hu
  subst hs
  subst hu
  simp only [KnobCatcher.Process]
  rw [if_pos hm]
  simp

/-- Witness for knobCatcher_snap_no_catchup at a concrete snapping tick. -/
theorem knobCatcher_snap_no_catchup_witness :
    |ONE_POLE (0 : ℚ) (1 / 2) 1 - 0| > kMovementThreshold ∧
    ((KnobCatcher.Process
        ⟨KnobState.KNOB_WAITING, 1, false, 0, 7 / 10, 0⟩ (1 / 2)).1 =
      ONE_POLE (0 : ℚ) (1 / 2) 1 ∧
    (KnobCatcher.Process
        ⟨KnobState.KNOB_WAITING, 1, false, 0, 7 / 10, 0⟩ (1 / 2)).2.state =
      KnobState.KNOB_TRACKING) := by
  have hm : |ONE_POLE (0 : ℚ) (1 / 2) 1 - 0| > kMovementThreshold := by
    rw [gt_iff_lt, lt_abs]
    left
    norm_num [ONE_POLE, kMovementThreshold]
  exact ⟨hm, knobCatcher_snap_no_catchup
    ⟨KnobState.KNOB_WAITING, 1, false, 0, 7 / 10, 0⟩ (1 / 2) rfl rfl hm⟩

/-- Clamping to [0,1] never moves a value farther from a target already
inside [0,1]. -/
lemma abs_clamp_sub_le (y c : ℚ) (h0 : 0 ≤ c) (h1 : c ≤ 1) :
    |max 0 (min 1 y) - c| ≤ |y - c| := by
  rcases le_total y 0 with hy | hy
  · rw [min_eq_right (by linarith : y ≤ 1), max_eq_left hy,
      abs_of_nonpos (by linarith), abs_of_nonpos (by linarith)]
    linarith
  · rcases le_total y 1 with hy1 | hy1
    · rw [min_eq_right hy1, max_eq_right hy]
    · rw [min_eq_left hy1, max_eq_right (by norm_num : (0 : ℚ) ≤ 1),
        abs_of_nonneg (by linarith), abs_of_nonneg (by linarith)]
      linarith

/-- The clamped skew advance of knob_catcher.h moves stored strictly closer to
the filtered value whenever stored and previous differ and all values lie in
[0,1]: before clamping to [0,1], the advanced stored value is strictly closer
to the new filtered value f than stored was to previous. -/
lemma skew_advance_decrease (s p f : ℚ) (hs1 : s ≤ 1)
    (hp0 : 0 ≤ p) (hp1 : p ≤ 1) (hf0 : 0 ≤ f) (hf1 : f ≤ 1)
    (hne : s ≠ p) (hdne : f ≠ p) :
    |s + max (1 / 10) (min 10
        (if 0 < f - p then (1001 / 1000 - s) / (1001 / 1000 - p)
         else (1 / 1000 + s) / (1 / 1000 + p))) * (f - p) - f| < |s - p| := by
  rcases (sub_ne_zero.mpr hdne).lt_or_lt with hd | hd
  · -- downward movement: f < p
    rw [if_neg (by linarith : ¬(0 < f - p))]
    have hB : (0 : ℚ) < 1 / 1000 + p := by linarith
    have hdB : p - f < 1 / 1000 + p := by linarith
    rcases lt_or_le ((1 / 1000 + s) / (1 / 1000 + p)) (1 / 10) with h1 | h1
    · rw [min_eq_right (by linarith : (1 / 1000 + s) / (1 / 1000 + p) ≤ 10),
        max_eq_left (le_of_lt h1)]
      have h1' : 1 / 1000 + s < 1 / 10 * (1 / 1000 + p) := (div_lt_iff hB).mp h1
      have hsp : s < p := by linarith
      rw [abs_of_neg (by linarith : s - p < 0), abs_lt]
      constructor <;> linarith
    · rcases lt_or_le (10 : ℚ) ((1 / 1000 + s) / (1 / 1000 + p)) with h3 | h3
      · rw [min_eq_left (le_of_lt h3), max_eq_right (by norm_num : (1 / 10 : ℚ) ≤ 10)]
        have h3' : 10 * (1 / 1000 + p) < 1 / 1000 + s := (lt_div_iff hB).mp h3
        have hsp : p < s := by linarith
        rw [abs_of_pos (by linarith : 0 < s - p), abs_lt]
        constructor <;> linarith
      · rw [min_eq_right h3, max_eq_right h1]
        have hσB : (1 / 1000 + s) / (1 / 1000 + p) * (1 / 1000 + p) = 1 / 1000 + s :=
          div_mul_cancel₀ _ (ne_of_gt hB)
        rcases hne.lt_or_lt with hsp | hsp
        · have hσ1 : (1 / 1000 + s) / (1 / 1000 + p) < 1 :=
            (div_lt_one hB).mpr (by linarith)
          have key : (1 - (1 / 1000 + s) / (1 / 1000 + p)) * (p - f) <
              (1 - (1 / 1000 + s) / (1 / 1000 + p)) * (1 / 1000 + p) :=
            mul_lt_mul_of_pos_left hdB (by linarith)
          have key0 : 0 < (1 - (1 / 1000 + s) / (1 / 1000 + p)) * (p - f) :=
            mul_pos (by linarith) (by linarith)
          rw [abs_of_neg (by linarith : s - p < 0), abs_lt]
          constructor <;> linarith [key, key0, hσB]
        · have hσ1 : 1 < (1 / 1000 + s) / (1 / 1000 + p) :=
            (one_lt_div hB).mpr (by linarith)
          have key : ((1 / 1000 + s) / (1 / 1000 + p) - 1) * (p - f) <
              ((1 / 1000 + s) / (1 / 1000 + p) - 1) * (1 / 1000 + p) :=
            mul_lt_mul_of_pos_left hdB (by linarith)
          have key0 : 0 < ((1 / 1000 + s) / (1 / 1000 + p) - 1) * (p - f) :=
            mul_pos (by linarith) (by linarith)
          rw [abs_of_pos (by linarith : 0 < s - p), abs_lt]
          constructor <;> linarith [key, key0, hσB]
  · -- upward movement: p < f
    rw [if_pos hd]
    have hB : (0 : ℚ) < 1001 / 1000 - p := by linarith
    have hdB : f - p < 1001 / 1000 - p := by linarith
    rcases lt_or_le ((1001 / 1000 - s) / (1001 / 1000 - p)) (1 / 10) with h1 | h1
    · rw [min_eq_right (by linarith : (1001 / 1000 - s) / (1001 / 1000 - p) ≤ 10),
        max_eq_left (le_of_lt h1)]
      have h1' : 1001 / 1000 - s < 1 / 10 * (1001 / 1000 - p) := (div_lt_iff hB).mp h1
      have hsp : p < s := by linarith
      rw [abs_of_pos (by linarith : 0 < s - p), abs_lt]
      constructor <;> linarith
    · rcases lt_or_le (10 : ℚ) ((1001 / 1000 - s) / (1001 / 1000 - p)) with h3 | h3
      · rw [min_eq_left (le_of_lt h3), max_eq_right (by norm_num : (1 / 10 : ℚ) ≤ 10)]
        have h3' : 10 * (1001 / 1000 - p) < 1001 / 1000 - s := (lt_div_iff hB).mp h3
        have hsp : s < p := by linarith
        rw [abs_of_neg (by linarith : s - p < 0), abs_lt]
        constructor <;> linarith
      · rw [min_eq_right h3, max_eq_right h1]
        have hσB : (1001 / 1000 - s) / (1001 / 1000 - p) * (1001 / 1000 - p) =
            1001 / 1000 - s :=
          div_mul_cancel₀ _ (ne_of_gt hB)
        rcases hne.lt_or_lt with hsp | hsp
        · have hσ1 : 1 < (1001 / 1000 - s) / (1001 / 1000 - p) :=
            (one_lt_div hB).mpr (by linarith)
          have key : ((1001 / 1000 - s) / (1001 / 1000 - p) - 1) * (f - p) <
              ((1001 / 1000 - s) / (1001 / 1000 - p) - 1) * (1001 / 1000 - p) :=
            mul_lt_mul_of_pos_left hdB (by linarith)
          have key0 : 0 < ((1001 / 1000 - s) / (1001 / 1000 - p) - 1) * (f - p) :=
            mul_pos (by linarith) hd
          rw [abs_of_neg (by linarith : s - p < 0), abs_lt]
          constructor <;> linarith [key, key0, hσB]
        · have hσ1 : (1001 / 1000 - s) / (1001 / 1000 - p) < 1 :=
            (div_lt_one hB).mpr (by linarith)
          have key : (1 - (1001 / 1000 - s) / (1001 / 1000 - p)) * (f - p) <
              (1 - (1001 / 1000 - s) / (1001 / 1000 - p)) * (1001 / 1000 - p) :=
            mul_lt_mul_of_pos_left hdB (by linarith)
          have key0 : 0 < (1 - (1001 / 1000 - s) / (1001 / 1000 - p)) * (f - p) :=
            mul_pos (by linarith) hd
          rw [abs_of_pos (by linarith : 0 < s - p), abs_lt]
          constructor <;> linarith [key, key0, hσB]

/-- An unstalled CatchingUp tick (movement above kMinDelta, previous equal to
the current filtered value, all values in [0,1]) makes the state Tracking
exactly when the updated distance is below the catch-up threshold, and either
reaches that threshold or strictly decreases the distance |stored - filtered|. -/
lemma catchup_tick_approaches (k : KnobCatcher) (x : ℚ)
    (hs : k.state = KnobState.KNOB_CATCHING_UP)
    (hs0 : 0 ≤ k.stored_value) (hs1 : k.stored_value ≤ 1)
    (hp0 : 0 ≤ k.previous_value) (hp1 : k.previous_value ≤ 1)
    (hfp : k.filtered_value = k.previous_value)
    (hf0 : 0 ≤ ONE_POLE k.filtered_value x k.lp_coefficient)
    (hf1 : ONE_POLE k.filtered_value x k.lp_coefficient ≤ 1)
    (hm : |ONE_POLE k.filtered_value x k.lp_coefficient - k.previous_value| >
      kMinDelta) :
    ((k.Process x).2.state = KnobState.KNOB_TRACKING ↔
      |(k.Process x).2.stored_value -
        ONE_POLE k.filtered_value x k.lp_coefficient| < kCatchUpThreshold) ∧
    (|(k.Process x).2.stored_value -
        ONE_POLE k.filtered_value x k.lp_coefficient| <
        |k.stored_value - k.filtered_value| ∨
      (|(k.Process x).2.stored_value -
          ONE_POLE k.filtered_value x k.lp_coefficient| < kCatchUpThreshold ∧
        (k.Process x).2.state = KnobState.KNOB_TRACKING)) := by
  obtain ⟨st, lp, uc, fv, sv, pv⟩ := k
  simp only at hs hs0 hs1 hp0 hp1 hfp hf0 hf1 hm ⊢
  subst hs
  subst hfp
  have hdne : ONE_POLE fv x lp ≠ fv := by
    intro hh
    rw [hh, sub_self, abs_zero] at hm
    norm_num [kMinDelta] at hm
  have e := process_catchup_update
    ⟨KnobState.KNOB_CATCHING_UP, lp, uc, fv, sv, fv⟩ x rfl hm
  simp only [e]
  generalize hgen : ONE_POLE fv x lp = f at hdne hf0 hf1 ⊢
  constructor
  · split_ifs
    all_goals
      first
      | exact iff_of_true rfl (by assumption)
      | exact iff_of_false (by simp) (by assumption)
  · rcases eq_or_ne sv fv with he | hne
    · subst he
      right
      have hσ : (if 0 < f - sv then
            (1001 / 1000 - sv) / (1001 / 1000 - sv)
          else (1 / 1000 + sv) / (1 / 1000 + sv)) = 1 := by
        split_ifs
        · exact div_self (ne_of_gt (by linarith))
        · exact div_self (ne_of_gt (by linarith))
      rw [hσ]
      have hone : max (1 / 10 : ℚ) (min 10 1) = 1 := by norm_num
      rw [hone, one_mul]
      have hpf : sv + (f - sv) = f := by ring
      rw [hpf, min_eq_right hf1, max_eq_right hf0, sub_self, abs_zero]
      refine ⟨by norm_num [kCatchUpThreshold], ?_⟩
      rw [if_pos (by norm_num [kCatchUpThreshold] : (0 : ℚ) < kCatchUpThreshold)]
    · left
      calc |max 0 (min 1 (sv + max (1 / 10) (min 10
              (if 0 < f - fv then (1001 / 1000 - sv) / (1001 / 1000 - fv)
               else (1 / 1000 + sv) / (1 / 1000 + fv))) * (f - fv))) - f| ≤
            |sv + max (1 / 10) (min 10
              (if 0 < f - fv then (1001 / 1000 - sv) / (1001 / 1000 - fv)
               else (1 / 1000 + sv) / (1 / 1000 + fv))) * (f - fv) - f| :=
          abs_clamp_sub_le _ f hf0 hf1
        _ < |sv - fv| :=
          skew_advance_decrease sv fv f hs1 hp0 hp1 hf0 hf1 hne hdne

/-- C2 (amended): with catch-up enabled, movement beyond the movement
threshold while Waiting enters CatchingUp (that tick still outputs the stored
value); on each subsequent unstalled tick (movement above kMinDelta, previous
equal to the current filtered value, values in [0,1]) the distance
|stored - filtered| either strictly decreases or falls below the catch-up
threshold, and the state becomes Tracking exactly when the updated distance is
below the threshold. On stalled ticks (movement at most kMinDelta) stored does
not advance and the distance can grow, so the unamended monotone-decrease
claim fails (see knobCatcher_distance_can_increase). -/
theorem knobCatcher_catchup_approach :
    (∀ (k : KnobCatcher) (x : ℚ),
        k.state = KnobState.KNOB_WAITING → k.use_catchup = true →
        |ONE_POLE k.filtered_value x k.lp_coefficient - k.previous_value| >
          kMovementThreshold →
        (k.Process x).2.state = KnobState.KNOB_CATCHING_UP ∧
        (k.Process x).1 = k.stored_value) ∧
    (∀ (k : KnobCatcher) (x : ℚ),
        k.state = KnobState.KNOB_CATCHING_UP →
        0 ≤ k.stored_value → k.stored_value ≤ 1 →
        0 ≤ k.previous_value → k.previous_value ≤ 1 →
        k.filtered_value = k.previous_value →
        0 ≤ ONE_POLE k.filtered_value x k.lp_coefficient →
        ONE_POLE k.filtered_value x k.lp_coefficient ≤ 1 →
        |ONE_POLE k.filtered_value x k.lp_coefficient - k.previous_value| >
          kMinDelta →
        ((k.Process x).2.state = KnobState.KNOB_TRACKING ↔
          |(k.Process x).2.stored_value -
            ONE_POLE k.filtered_value x k.lp_coefficient| < kCatchUpThreshold) ∧
        (|(k.Process x).2.stored_value -
            ONE_POLE k.filtered_value x k.lp_coefficient| <
            |k.stored_value - k.filtered_value| ∨
          (|(k.Process x).2.stored_value -
              ONE_POLE k.filtered_value x k.lp_coefficient| < kCatchUpThreshold ∧
            (k.Process x).2.state = KnobState.KNOB_TRACKING))) := by
  constructor
  · intro k x hs hu hm
    rw [process_waiting_move_catchup k x hs hu hm]
    exact ⟨rfl, rfl⟩
  · exact catchup_tick_approaches

/-- Witness for knobCatcher_catchup_approach: c2k0 enters CatchingUp on a
0.04 movement, and c2w strictly approaches the filtered value 0.6. -/
theorem knobCatcher_catchup_approach_witness :
    ((c2k0.Process (1 / 2)).2.state = KnobState.KNOB_CATCHING_UP ∧
      (c2k0.Process (1 / 2)).1 = c2k0.stored_value) ∧
    (((c2w.Process (3 / 5)).2.state = KnobState.KNOB_TRACKING ↔
        |(c2w.Process (3 / 5)).2.stored_value -
          ONE_POLE c2w.filtered_value (3 / 5) c2w.lp_coefficient| <
          kCatchUpThreshold) ∧
      (|(c2w.Process (3 / 5)).2.stored_value -
          ONE_POLE c2w.filtered_value (3 / 5) c2w.lp_coefficient| <
          |c2w.stored_value - c2w.filtered_value| ∨
        (|(c2w.Process (3 / 5)).2.stored_value -
            ONE_POLE c2w.filtered_value (3 / 5) c2w.lp_coefficient| <
            kCatchUpThreshold ∧
          (c2w.Process (3 / 5)).2.state = KnobState.KNOB_TRACKING))) := by
  have hm1 : |ONE_POLE c2k0.filtered_value (1 / 2) c2k0.lp_coefficient -
      c2k0.previous_value| > kMovementThreshold := by
    rw [gt_iff_lt, lt_abs]
    left
    norm_num [c2k0, ONE_POLE, kMovementThreshold]
  have hm2 : |ONE_POLE c2w.filtered_value (3 / 5) c2w.lp_coefficient -
      c2w.previous_value| > kMinDelta := by
    rw [gt_iff_lt, lt_abs]
    left
    norm_num [c2w, ONE_POLE, kMinDelta]
  exact ⟨knobCatcher_catchup_approach.1 c2k0 (1 / 2) rfl rfl hm1,
    knobCatcher_catchup_approach.2 c2w (3 / 5) rfl
      (by norm_num [c2w]) (by norm_num [c2w])
      (by norm_num [c2w]) (by norm_num [c2w]) rfl
      (by norm_num [c2w, ONE_POLE]) (by norm_num [c2w, ONE_POLE]) hm2⟩

/-- A Waiting tick whose filtered input stays within the movement threshold of
previous outputs the stored value and changes only the filter state. -/
lemma process_waiting_hold (k : KnobCatcher) (x : ℚ)
    (hs : k.state = KnobState.KNOB_WAITING)
    (hm : ¬(|ONE_POLE k.filtered_value x k.lp_coefficient - k.previous_value| >
      kMovementThreshold)) :
    k.Process x = (k.stored_value,
      { k with filtered_value := ONE_POLE k.filtered_value x k.lp_coefficient }) := by
  obtain ⟨st, lp, uc, fv, sv, pv⟩ := k
  simp only at hs
  subst hs
  simp only [KnobCatcher.Process]
  rw [if_neg hm]

/-- Run form of the Waiting hold: while every filtered value of the run stays
within the movement threshold of previous, every output is the stored value
and the catcher stays Waiting with stored unchanged. -/
lemma processRun_waiting_all (xs : List ℚ) : ∀ k : KnobCatcher,
    k.state = KnobState.KNOB_WAITING →
    (∀ f ∈ filteredTrace k.filtered_value k.lp_coefficient xs,
      |f - k.previous_value| ≤ kMovementThreshold) →
    (k.ProcessRun xs).1 = List.replicate xs.length k.stored_value ∧
    (k.ProcessRun xs).2.state = KnobState.KNOB_WAITING ∧
    (k.ProcessRun xs).2.stored_value = k.stored_value := by
  induction xs with
  | nil =>
      intro k hs _
      exact ⟨rfl, hs, rfl⟩
  | cons x xs ih =>
      intro k hs h
      have hm0 : |ONE_POLE k.filtered_value x k.lp_coefficient - k.previous_value| ≤
          kMovementThreshold :=
        h _ (by simp [filteredTrace])
      have hstep := process_waiting_hold k x hs (not_lt.mpr hm0)
      have htail : ∀ f ∈ filteredTrace
          (ONE_POLE k.filtered_value x k.lp_coefficient) k.lp_coefficient xs,
          |f - k.previous_value| ≤ kMovementThreshold := by
        intro f hf
        exact h f (by simp [filteredTrace, hf])
      obtain ⟨ih1, ih2, ih3⟩ := ih
        { k with filtered_value := ONE_POLE k.filtered_value x k.lp_coefficient }
        (by simpa using hs) (by simpa using htail)
      simp only [KnobCatcher.ProcessRun, hstep]
      refine ⟨?_, ih2, by simpa using ih3⟩
      simp only [List.length_cons, List.replicate_succ]
      exact congrArg _ (by simpa using ih1)

/-- C3: after OnPageChange(v), every Process output equals v for any input
sequence whose filtered values stay within the movement threshold of the
frozen previous value, and the catcher stays Waiting throughout. -/
theorem knobCatcher_pageChange_pins (k : KnobCatcher) (v : ℚ) (xs : List ℚ)
    (h : ∀ f ∈ filteredTrace k.filtered_value k.lp_coefficient xs,
      |f - k.previous_value| ≤ kMovementThreshold) :
    ((k.OnPageChange v).ProcessRun xs).1 = List.replicate xs.length v ∧
    ((k.OnPageChange v).ProcessRun xs).2.state = KnobState.KNOB_WAITING := by
  obtain ⟨h1, h2, _⟩ := processRun_waiting_all xs (k.OnPageChange v) rfl
    (by simpa [KnobCatcher.OnPageChange] using h)
  exact ⟨by simpa [KnobCatcher.OnPageChange] using h1, h2⟩

/-- Witness for knobCatcher_pageChange_pins: two small readings after a page
change leave the output pinned to the stored value 7/10. -/
theorem knobCatcher_pageChange_pins_witness :
    (((KnobCatcher.Init 1 true).OnPageChange (7 / 10)).ProcessRun
        [1 / 50, 1 / 100]).1 = List.replicate 2 (7 / 10) ∧
    (((KnobCatcher.Init 1 true).OnPageChange (7 / 10)).ProcessRun
        [1 / 50, 1 / 100]).2.state = KnobState.KNOB_WAITING := by
  have h : ∀ f ∈ filteredTrace (KnobCatcher.Init 1 true).filtered_value
      (KnobCatcher.Init 1 true).lp_coefficient [(1 / 50 : ℚ), 1 / 100],
      |f - (KnobCatcher.Init 1 true).previous_value| ≤ kMovementThreshold := by
    intro f hf
    simp only [KnobCatcher.Init, filteredTrace, ONE_POLE, List.mem_cons,
      List.not_mem_nil, or_false] at hf
    rw [abs_le]
    rcases hf with h | h <;> subst h <;> constructor <;>
      norm_num [KnobCatcher.Init, kMovementThreshold]
  exact knobCatcher_pageChange_pins (KnobCatcher.Init 1 true) (7 / 10)
    [1 / 50, 1 / 100] h

/-- C7: ProcessWithMapping returns the knob value exactly when the mapping is
unmapped (cv_input < 0) or inactive, and otherwise returns
clamp(origin_offset + (cv_value - 0.5) * 2 * attenuverter, 0, 1). -/
theorem processWithMapping_cases (param : Parameter) (knob_value cv_value : ℚ) :
    ((param.cv_mapping.cv_input < 0 ∨ param.cv_mapping.active = false) →
      CVInput.ProcessWithMapping param knob_value cv_value = knob_value) ∧
    (0 ≤ param.cv_mapping.cv_input → param.cv_mapping.active = true →
      CVInput.ProcessWithMapping param knob_value cv_value =
        stdClamp
          (param.cv_mapping.origin_offset +
            (cv_value - 1 / 2) * 2 * param.cv_mapping.attenuverter) 0 1) := by
  constructor
  · intro h
    simp only [CVInput.ProcessWithMapping, if_pos h]
  · intro h1 h2
    have hno : ¬(param.cv_mapping.cv_input < 0 ∨ param.cv_mapping.active = false) := by
      push_neg
      exact ⟨h1, by simp [h2]⟩
    simp only [CVInput.ProcessWithMapping, if_neg hno]

/-- Witness for processWithMapping_cases at a concrete mapped parameter. -/
theorem processWithMapping_cases_witness :
    (0 : Int) ≤ 2 ∧
    CVInput.ProcessWithMapping
        { value := 1 / 2, min := 0, max := 1
          cv_mapping := { cv_input := 2, attenuverter := 1 / 2, origin_offset := 1 / 4, active := true } }
        (9 / 10) (3 / 4) =
      stdClamp (1 / 4 + (3 / 4 - 1 / 2) * 2 * (1 / 2)) 0 1 := by
  refine ⟨by decide, ?_⟩
  exact (processWithMapping_cases
    { value := 1 / 2, min := 0, max := 1
      cv_mapping := { cv_input := 2, attenuverter := 1 / 2, origin_offset := 1 / 4, active := true } }
    (9 / 10) (3 / 4)).2 (by decide) rfl

/-- C9: once a parameter's CV mapping is active and mapped, the result of
ProcessWithMapping does not depend on the knob value. -/
theorem processWithMapping_knob_independent (param : Parameter) (k1 k2 cv_value : ℚ)
    (h1 : 0 ≤ param.cv_mapping.cv_input) (h2 : param.cv_mapping.active = true) :
    CVInput.ProcessWithMapping param k1 cv_value =
      CVInput.ProcessWithMapping param k2 cv_value := by
  have hno : ¬(param.cv_mapping.cv_input < 0 ∨ param.cv_mapping.active = false) := by
    push_neg
    exact ⟨h1, by simp [h2]⟩
  simp only [CVInput.ProcessWithMapping, if_neg hno]

/-- Witness for processWithMapping_knob_independent at two distinct knob values. -/
theorem processWithMapping_knob_independent_witness :
    CVInput.ProcessWithMapping
        { value := 0, min := 0, max := 1
          cv_mapping := { cv_input := 0, attenuverter := 1, origin_offset := 1 / 2, active := true } }
        0 (2 / 3) =
      CVInput.ProcessWithMapping
        { value := 0, min := 0, max := 1
          cv_mapping := { cv_input := 0, attenuverter := 1, origin_offset := 1 / 2, active := true } }
        1 (2 / 3) :=
  processWithMapping_knob_independent
    { value := 0, min := 0, max := 1
      cv_mapping := { cv_input := 0, attenuverter := 1, origin_offset := 1 / 2, active := true } }
    0 1 (2 / 3) (by decide) rfl

/-- C8: writing a normalized value back into a live Parameter with the
hysteresis variant commits it (via SetNormalized) exactly when it differs from
the current normalized value by more than the 0.001 threshold used at the call
site in src/plaits/main.cpp, and otherwise leaves the parameter unchanged. -/
theorem setNormalizedWithHysteresis_commit (p : Parameter) (n : ℚ) :
    (|n - p.GetNormalized| > 1 / 1000 →
      p.SetNormalizedWithHysteresis n (1 / 1000) = p.SetNormalized n) ∧
    (¬(|n - p.GetNormalized| > 1 / 1000) →
      p.SetNormalizedWithHysteresis n (1 / 1000) = p) := by
  constructor
  · intro h
    simp only [Parameter.SetNormalizedWithHysteresis, if_pos h]
  · intro h
    simp only [Parameter.SetNormalizedWithHysteresis, if_neg h]

/-- Witness for setNormalizedWithHysteresis_commit: a sub-threshold write
leaves the parameter unchanged. -/
theorem setNormalizedWithHysteresis_commit_witness :
    ¬(|(1 / 2 + 1 / 2000 : ℚ) -
        Parameter.GetNormalized
          { value := 1 / 2, min := 0, max := 1, cv_mapping := CVMapping.init }| > 1 / 1000) ∧
    Parameter.SetNormalizedWithHysteresis
        { value := 1 / 2, min := 0, max := 1, cv_mapping := CVMapping.init }
        (1 / 2 + 1 / 2000) (1 / 1000) =
      { value := 1 / 2, min := 0, max := 1, cv_mapping := CVMapping.init } :=
  ⟨by rw [not_lt]; norm_num [Parameter.GetNormalized, abs_le],
    (setNormalizedWithHysteresis_commit
      { value := 1 / 2, min := 0, max := 1, cv_mapping := CVMapping.init }
      (1 / 2 + 1 / 2000)).2
      (by rw [not_lt]; norm_num [Parameter.GetNormalized, abs_le])⟩

/-- C5: in the Navigate state, a long press moves the menu to Submenu, records
the currently selected parameter as the open submenu's parameter, and resets
the submenu selection to CVSource. -/
theorem navigate_long_press_enters_submenu (m : MenuState) (button : Bool)
    (h : m.state = UIState.Navigate) :
    (UpdateEncoder m 0 button true).state = UIState.Submenu ∧
    (UpdateEncoder m 0 button true).submenu_param_index = m.selected_param ∧
    (UpdateEncoder m 0 button true).selected_submenu_item = SubmenuItem.CVSource := by
  obtain ⟨st, sel, cnt, off, item, sub⟩ := m
  subst h
  cases button <;>
    simp [UpdateEncoder, MenuState.EnterSubmenu]

/-- Witness for navigate_long_press_enters_submenu at a concrete menu state. -/
theorem navigate_long_press_enters_submenu_witness :
    (UpdateEncoder
        { state := UIState.Navigate, selected_param := 3, param_count := 9,
          scroll_offset := 1, selected_submenu_item := SubmenuItem.Back,
          submenu_param_index := -1 } 0 false true).state = UIState.Submenu ∧
    (UpdateEncoder
        { state := UIState.Navigate, selected_param := 3, param_count := 9,
          scroll_offset := 1, selected_submenu_item := SubmenuItem.Back,
          submenu_param_index := -1 } 0 false true).submenu_param_index = 3 ∧
    (UpdateEncoder
        { state := UIState.Navigate, selected_param := 3, param_count := 9,
          scroll_offset := 1, selected_submenu_item := SubmenuItem.Back,
          submenu_param_index := -1 } 0 false true).selected_submenu_item =
      SubmenuItem.CVSource :=
  navigate_long_press_enters_submenu
    { state := UIState.Navigate, selected_param := 3, param_count := 9,
      scroll_offset := 1, selected_submenu_item := SubmenuItem.Back,
      submenu_param_index := -1 } false rfl

/-- C10: with param_count = 0 and selected_param = 0, PrevParam leaves the
selection at -1 with scroll offset 0, violating 0 ≤ selected < param_count,
while NextParam wraps the selection back to 0. -/
theorem prevParam_empty_menu (m : MenuState) (hc : m.param_count = 0)
    (h0 : m.selected_param = 0) :
    (m.PrevParam).selected_param = -1 ∧
    (m.PrevParam).scroll_offset = 0 ∧
    ¬(0 ≤ (m.PrevParam).selected_param ∧
        (m.PrevParam).selected_param < (m.PrevParam).param_count) ∧
    (m.NextParam).selected_param = 0 := by
  obtain ⟨st, sel, cnt, off, item, sub⟩ := m
  simp only at hc h0
  subst hc h0
  simp [MenuState.PrevParam, MenuState.NextParam, MenuState.ScrollToSelected,
    MenuState.VISIBLE_PARAMS]

/-- C6: with at least one parameter and a selection in range, NextParam and
PrevParam wrap at both ends, keep the selection within [0, param_count), and
leave the scroll offset within the window
selected - VISIBLE_PARAMS < offset ≤ selected. -/
theorem menuNav_wrap_and_window (m : MenuState) (hc : 1 ≤ m.param_count)
    (h0 : 0 ≤ m.selected_param) (h1 : m.selected_param < m.param_count) :
    (0 ≤ (m.NextParam).selected_param ∧
      (m.NextParam).selected_param < m.param_count) ∧
    (0 ≤ (m.PrevParam).selected_param ∧
      (m.PrevParam).selected_param < m.param_count) ∧
    (m.selected_param = m.param_count - 1 → (m.NextParam).selected_param = 0) ∧
    (m.selected_param = 0 → (m.PrevParam).selected_param = m.param_count - 1) ∧
    ((m.NextParam).selected_param - MenuState.VISIBLE_PARAMS <
        (m.NextParam).scroll_offset ∧
      (m.NextParam).scroll_offset ≤ (m.NextParam).selected_param) ∧
    ((m.PrevParam).selected_param - MenuState.VISIBLE_PARAMS <
        (m.PrevParam).scroll_offset ∧
      (m.PrevParam).scroll_offset ≤ (m.PrevParam).selected_param) := by
  obtain ⟨st, sel, cnt, off, item, sub⟩ := m
  simp only at hc h0 h1
  simp only [MenuState.NextParam, MenuState.PrevParam, MenuState.ScrollToSelected,
    MenuState.VISIBLE_PARAMS]
  split_ifs <;> simp_all <;> omega

/-- Witness for menuNav_wrap_and_window at the spec's end-to-end scenario:
nine parameters, selection at index 0. -/
theorem menuNav_wrap_and_window_witness :
    (1 : Int) ≤ 9 ∧ (0 : Int) ≤ 0 ∧ (0 : Int) < 9 ∧
    (0 ≤ (MenuState.NextParam
        { state := UIState.Navigate, selected_param := 0, param_count := 9,
          scroll_offset := 0, selected_submenu_item := SubmenuItem.CVSource,
          submenu_param_index := -1 }).selected_param ∧
      (MenuState.NextParam
        { state := UIState.Navigate, selected_param := 0, param_count := 9,
          scroll_offset := 0, selected_submenu_item := SubmenuItem.CVSource,
          submenu_param_index := -1 }).selected_param < 9) :=
  ⟨by decide, by decide, by decide,
    ((menuNav_wrap_and_window
      { state := UIState.Navigate, selected_param := 0, param_count := 9,
        scroll_offset := 0, selected_submenu_item := SubmenuItem.CVSource,
        submenu_param_index := -1 } (by decide) (by decide) (by decide)).1)⟩

/-- Witness for prevParam_empty_menu at the freshly initialized menu state. -/
theorem prevParam_empty_menu_witness :
    (MenuState.init.PrevParam).selected_param = -1 ∧
    (MenuState.init.PrevParam).scroll_offset = 0 ∧
    ¬(0 ≤ (MenuState.init.PrevParam).selected_param ∧
        (MenuState.init.PrevParam).selected_param <
          (MenuState.init.PrevParam).param_count) ∧
    (MenuState.init.NextParam).selected_param = 0 :=
  prevParam_empty_menu MenuState.init rfl rfl

end Theorems

end Spec2Proof
